import Mathlib

/-
Verification of the Yatube blogging platform.

The repository is a Django application: users write posts, optionally filed
under a group and carrying an image, comment on posts, and follow authors.
This file gives a shallow embedding of the behaviour the specification
describes.  The error handlers (`page_not_found`, `csrf_failure`) and the
`SET_NULL` deletion rule of `Post.group` are translated directly from
`core/views.py` and migration `0008_auto_20230306_2140.py`.  The posts
application's views, models and forms themselves are not part of the source
tree (only their test suites are), so those operations are modelled from the
specification's contracts, with each such definition marked
`Modelled from the spec:` in its doc comment.
-/

namespace Yatube

/-- An HTTP response: a rendered template with a status code, or a redirect. -/
inductive Response where
  | page (template : String) (status : Nat)
  | redirect (location : String)
deriving DecidableEq

/-- Status code carried by a response; a redirect is HTTP 302 (Found). -/
def Response.statusCode : Response → Nat
  | .page _ s => s
  | .redirect _ => 302

/-- The template a response renders, if any. -/
def Response.templateName : Response → Option String
  | .page t _ => some t
  | .redirect _ => none

/-- An incoming HTTP request, reduced to the part the handlers read. -/
structure Request where
  path : String
deriving DecidableEq

/-- Django's `render(request, template_name, context, status=None)`: when no
status is passed, the response status defaults to 200. -/
def render (template : String) (status : Option Nat) : Response :=
  Response.page template (status.getD 200)

/-- From `core/views.py`: `page_not_found` renders `core/404.html` with an
explicit `status=404` (the context passes `request.path`, which does not
affect status or template). -/
def page_not_found (request : Request) : Response :=
  render "core/404.html" (some 404)

/-- From `core/views.py`: `csrf_failure` renders `core/403csrf.html` with no
explicit status argument. -/
def csrf_failure (request : Request) (reason : String) : Response :=
  render "core/403csrf.html" none

/-- A community a post can be filed under; `slug` identifies it in URLs. -/
structure Group where
  id : Nat
  title : String
  slug : String
  description : String
deriving DecidableEq

/-- A user-authored entry: required text, publication timestamp, author,
optional group reference and optional image.  The group reference is nullable
(`null=True`, `on_delete=SET_NULL` per migration 0008). -/
structure Post where
  id : Nat
  text : String
  pub_date : Nat
  author : String
  group : Option Nat
  image : Option String
deriving DecidableEq

/-- A comment on a post: required text, author, owning post. -/
structure Comment where
  id : Nat
  post : Nat
  author : String
  text : String
deriving DecidableEq

/-- A directed subscription: `user` follows `author`. -/
structure Follow where
  user : String
  author : String
deriving DecidableEq

/-- The relational store the views read and write. -/
structure DB where
  groups : List Group
  posts : List Post
  comments : List Comment
  follows : List Follow
deriving DecidableEq

/-- "More recent first": post `a` precedes post `b` when `a` was published at
or after `b`. -/
def recencyLE (a b : Post) : Prop := b.pub_date ≤ a.pub_date

instance : DecidableRel recencyLE :=
  fun a b => inferInstanceAs (Decidable (b.pub_date ≤ a.pub_date))

instance : IsTotal Post recencyLE :=
  ⟨fun a b => Nat.le_total b.pub_date a.pub_date⟩

instance : IsTrans Post recencyLE :=
  ⟨fun _ _ _ h1 h2 => Nat.le_trans h2 h1⟩

/-- Modelled from the spec: post lists are "ordered by recency", i.e. by
descending publication timestamp. -/
def orderByRecency (posts : List Post) : List Post :=
  posts.insertionSort recencyLE

/-- Modelled from the spec: the fixed page size of every listing page. -/
def POSTS_PER_PAGE : Nat := 10

/-- Modelled from the spec: the standard paginator — page `n` is the slice of
`POSTS_PER_PAGE` items starting at offset `(n-1) * POSTS_PER_PAGE`, with the
last page holding the remainder. -/
def paginate (items : List Post) (pageNumber : Nat) : List Post :=
  (items.drop ((pageNumber - 1) * POSTS_PER_PAGE)).take POSTS_PER_PAGE

/-- Modelled from the spec: the index queryset — all posts, ordered by
recency. -/
def indexPosts (db : DB) : List Post :=
  orderByRecency db.posts

/-- Modelled from the spec: look a group up by its (unique) slug. -/
def groupOfSlug (db : DB) (slug : String) : Option Group :=
  db.groups.find? (fun g => g.slug == slug)

/-- Modelled from the spec: the group page queryset — the posts assigned to
that group, ordered by recency. -/
def groupPosts (db : DB) (g : Group) : List Post :=
  orderByRecency (db.posts.filter (fun p => p.group == some g.id))

/-- Modelled from the spec: the profile page queryset — the posts written by
that author, ordered by recency. -/
def profilePosts (db : DB) (username : String) : List Post :=
  orderByRecency (db.posts.filter (fun p => p.author == username))

/-- Whether `user` currently follows `author`. -/
def isFollowing (db : DB) (user author : String) : Bool :=
  db.follows.any (fun f => f.user == user && f.author == author)

/-- Modelled from the spec: the follow feed queryset — the posts whose author
is followed by the requesting user, ordered by recency. -/
def followFeed (db : DB) (user : String) : List Post :=
  orderByRecency (db.posts.filter (fun p => isFollowing db user p.author))

/-- Page `n` of the index listing. -/
def index_page (db : DB) (n : Nat) : List Post :=
  paginate (indexPosts db) n

/-- Page `n` of a group's listing. -/
def group_page (db : DB) (g : Group) (n : Nat) : List Post :=
  paginate (groupPosts db g) n

/-- Page `n` of a profile's listing. -/
def profile_page (db : DB) (username : String) (n : Nat) : List Post :=
  paginate (profilePosts db username) n

/-- Modelled from the spec: the login page URL that protected routes redirect
to, carrying the original path in the `next` query parameter. -/
def loginUrl : String := "/auth/login/"

/-- The redirect an unauthenticated request to a protected route receives. -/
def loginRedirect (path : String) : Response :=
  Response.redirect (loginUrl ++ "?next=" ++ path)

/-- The detail page URL of a post. -/
def postDetailUrl (pid : Nat) : String :=
  "/posts/" ++ toString pid ++ "/"

/-- The profile page URL of a user. -/
def profileUrl (username : String) : String :=
  "/profile/" ++ username ++ "/"

/-- Input bound by the post form: required text, optional group choice,
optional image upload. -/
structure PostForm where
  text : String
  group : Option Nat
  image : Option String
deriving DecidableEq

/-- Modelled from the spec: the post form is valid when the required text is
non-empty and the chosen group, if any, exists. -/
def PostForm.isValid (form : PostForm) (db : DB) : Bool :=
  form.text != "" &&
    (match form.group with
     | none => true
     | some gid => db.groups.any (fun g => g.id == gid))

/-- Input bound by the comment form: required text. -/
structure CommentForm where
  text : String
deriving DecidableEq

/-- A primary key strictly larger than every existing post id. -/
def nextPostId (db : DB) : Nat :=
  (db.posts.map Post.id).foldr max 0 + 1

/-- A primary key strictly larger than every existing comment id. -/
def nextCommentId (db : DB) : Nat :=
  (db.comments.map Comment.id).foldr max 0 + 1

/-- Look a post up by its id. -/
def findPost (db : DB) (pid : Nat) : Option Post :=
  db.posts.find? (fun p => p.id == pid)

/-- Modelled from the spec: the post-creation view (`/create/`).  A guest is
redirected to the login page with `next=/create/`; an authenticated user with
a valid form gets a new post persisted (submitted text, group and image,
authored by the user, stamped `now`) and is redirected to their profile; an
invalid form re-renders with field errors. -/
def post_create (db : DB) (user : Option String) (form : PostForm) (now : Nat) :
    DB × Response :=
  match user with
  | none => (db, loginRedirect "/create/")
  | some u =>
    if form.isValid db then
      ({ db with posts :=
          { id := nextPostId db, text := form.text, pub_date := now, author := u,
            group := form.group, image := form.image } :: db.posts },
        Response.redirect (profileUrl u))
    else
      (db, render "posts/create_post.html" none)

/-- Modelled from the spec: the post-edit view (`/posts/<id>/edit/`).  A guest
is redirected to login with `next`; a missing post is a 404; a user other than
the author is redirected away to the post's detail page; the author with a
valid form gets the post's text and group updated and is redirected to the
detail page. -/
def post_edit (db : DB) (user : Option String) (pid : Nat) (form : PostForm) :
    DB × Response :=
  match user with
  | none => (db, loginRedirect ("/posts/" ++ toString pid ++ "/edit/"))
  | some u =>
    match findPost db pid with
    | none => (db, render "core/404.html" (some 404))
    | some p =>
      if p.author == u then
        if form.isValid db then
          ({ db with posts := db.posts.map (fun q =>
              if q.id == pid then { q with text := form.text, group := form.group }
              else q) },
            Response.redirect (postDetailUrl pid))
        else
          (db, render "posts/create_post.html" none)
      else
        (db, Response.redirect (postDetailUrl pid))

/-- Modelled from the spec: the comment-submission view
(`/posts/<id>/comment/`).  A guest is redirected to login with `next` and no
comment is stored; an authenticated user with a non-empty text gets the
comment persisted and is redirected to the post's detail page. -/
def add_comment (db : DB) (user : Option String) (pid : Nat) (form : CommentForm) :
    DB × Response :=
  match user with
  | none => (db, loginRedirect ("/posts/" ++ toString pid ++ "/comment/"))
  | some u =>
    match findPost db pid with
    | none => (db, render "core/404.html" (some 404))
    | some _ =>
      if form.text != "" then
        ({ db with comments :=
            { id := nextCommentId db, post := pid, author := u, text := form.text }
              :: db.comments },
          Response.redirect (postDetailUrl pid))
      else
        (db, Response.redirect (postDetailUrl pid))

/-- Modelled from the spec: the follow view (`/profile/<username>/follow/`).
A guest is redirected to login; an authenticated user gets a Follow record
from them to the author created (creation is not guarded against duplicates,
per the spec's open question). -/
def profile_follow (db : DB) (user : Option String) (author : String) :
    DB × Response :=
  match user with
  | none => (db, loginRedirect (profileUrl author ++ "follow/"))
  | some u =>
    ({ db with follows := { user := u, author := author } :: db.follows },
      Response.redirect (profileUrl author))

/-- Modelled from the spec: the unfollow view
(`/profile/<username>/unfollow/`).  Removes every Follow record from the
acting user to the author. -/
def profile_unfollow (db : DB) (user : Option String) (author : String) :
    DB × Response :=
  match user with
  | none => (db, loginRedirect (profileUrl author ++ "unfollow/"))
  | some u =>
    ({ db with follows :=
        db.follows.filter (fun f => !(f.user == u && f.author == author)) },
      Response.redirect (profileUrl author))

/-- The number of Follow records from `u` to `a`. -/
def followCount (db : DB) (u a : String) : Nat :=
  (db.follows.filter (fun f => f.user == u && f.author == a)).length

/-- Modelled from the spec: the index page is cached for a fixed interval
(seconds). -/
def CACHE_TIMEOUT : Nat := 20

/-- The rendered byte content of the index page, as a function of the store:
the recency-ordered posts serialised into the response body. -/
def renderIndexContent (db : DB) : String :=
  String.intercalate "\n"
    ((indexPosts db).map (fun p => toString p.id ++ ":" ++ p.text))

/-- The server state the cached index view reads and writes: the store plus
the cache entry for the index page (time it was stored, cached body). -/
structure SiteState where
  db : DB
  indexCache : Option (Nat × String)
deriving DecidableEq

/-- Modelled from the spec: the cached index view.  If a cache entry exists
and has not expired, its stale body is returned unchanged; otherwise the page
is rendered from the store and cached at the current time. -/
def get_index (s : SiteState) (now : Nat) : String × SiteState :=
  match s.indexCache with
  | some (t0, content) =>
    if now < t0 + CACHE_TIMEOUT then
      (content, s)
    else
      (renderIndexContent s.db,
        { s with indexCache := some (now, renderIndexContent s.db) })
  | none =>
    (renderIndexContent s.db,
      { s with indexCache := some (now, renderIndexContent s.db) })

/-- Deleting a post removes it (and, by cascade, its comments) from the
store; the index cache entry is not invalidated. -/
def delete_post (s : SiteState) (pid : Nat) : SiteState :=
  { s with db :=
    { s.db with
      posts := s.db.posts.filter (fun p => !(p.id == pid)),
      comments := s.db.comments.filter (fun c => !(c.post == pid)) } }

/-- From migration `0008_auto_20230306_2140.py`: `Post.group` has
`on_delete=SET_NULL, null=True`, so deleting a group removes the group row
and sets the group reference of each of its posts to null, leaving the posts
themselves in place. -/
def delete_group (db : DB) (gid : Nat) : DB :=
  { db with
    groups := db.groups.filter (fun g => !(g.id == gid)),
    posts := db.posts.map (fun p =>
      if p.group == some gid then { p with group := none } else p) }

/-- Modelled from the spec: the group listing view (`/group/<slug>/`) —
resolve the slug to a group (404, i.e. `none`, when absent) and list that
group's posts. -/
def group_list_view (db : DB) (slug : String) : Option (List Post) :=
  (groupOfSlug db slug).map (groupPosts db)

/-- Concrete group used by the test fixtures. -/
def groupFixture : Group :=
  { id := 1, title := "test group", slug := "slug", description := "descr" }

/-- Concrete post used by the test fixtures. -/
def postFixture : Post :=
  { id := 1, text := "test post", pub_date := 0, author := "user",
    group := some 1, image := none }

/-- Concrete store: one group, one post in it, no comments or follows. -/
def basicFixture : DB :=
  { groups := [groupFixture], posts := [postFixture], comments := [], follows := [] }

/-- Concrete server state with a cold index cache. -/
def siteFixture : SiteState :=
  { db := basicFixture, indexCache := none }

/-- Concrete valid post form: text, existing group, an image. -/
def postFormFixture : PostForm :=
  { text := "new text", group := some 1, image := some "posts/small.gif" }

/-- Concrete comment form. -/
def commentFormFixture : CommentForm :=
  { text := "a comment" }

/-- Concrete post by the followed author. -/
def feedPostFixture : Post :=
  { id := 1, text := "subscribe to me", pub_date := 0, author := "user",
    group := none, image := none }

/-- Concrete store where `post_follower` follows `user`, who has one post. -/
def followFixture : DB :=
  { groups := [], posts := [feedPostFixture], comments := [],
    follows := [{ user := "post_follower", author := "user" }] }

/-- Concrete store mirroring the paginator test fixture: thirteen posts, all
by the same author and all in the same group. -/
def paginationFixture : DB :=
  { groups := [groupFixture],
    posts := (List.range 13).map (fun i =>
      { id := i + 1, text := "post text", pub_date := i, author := "user",
        group := some 1, image := none }),
    comments := [],
    follows := [] }

end Yatube

/-- C1 counterexample: at the concrete request with path "/" and empty reason,
the handlers do NOT satisfy the claimed pair of statuses — `csrf_failure`
renders `core/403csrf.html` but with the default status 200, not 403. -/
theorem C1_counterexample :
    ¬ ((Yatube.page_not_found ⟨"/unexisting_page/"⟩).statusCode = 404 ∧
       (Yatube.page_not_found ⟨"/unexisting_page/"⟩).templateName = some "core/404.html" ∧
       (Yatube.csrf_failure ⟨"/"⟩ "").statusCode = 403 ∧
       (Yatube.csrf_failure ⟨"/"⟩ "").templateName = some "core/403csrf.html") := by
  intro h
  have h403 := h.2.2.1
  simp [Yatube.csrf_failure, Yatube.render, Yatube.Response.statusCode] at h403

/-- C1 (amended): for every request, `page_not_found` returns status 404
rendering `core/404.html`, and `csrf_failure` renders `core/403csrf.html`
but with the default status 200 (no explicit status is passed to render). -/
theorem C1_error_handlers (req : Yatube.Request) (reason : String) :
    (Yatube.page_not_found req).statusCode = 404 ∧
    (Yatube.page_not_found req).templateName = some "core/404.html" ∧
    (Yatube.csrf_failure req reason).statusCode = 200 ∧
    (Yatube.csrf_failure req reason).templateName = some "core/403csrf.html" := by
  refine ⟨rfl, rfl, rfl, rfl⟩

namespace Yatube

/-- Sorting by recency preserves the number of posts. -/
theorem length_orderByRecency (l : List Post) :
    (orderByRecency l).length = l.length :=
  (List.perm_insertionSort recencyLE l).length_eq

/-- Sorting by recency preserves membership. -/
theorem mem_orderByRecency (p : Post) (l : List Post) :
    p ∈ orderByRecency l ↔ p ∈ l :=
  (List.perm_insertionSort recencyLE l).mem_iff

/-- The recency ordering really sorts: the result is pairwise ordered by
descending publication timestamp. -/
theorem sorted_orderByRecency (l : List Post) :
    List.Sorted recencyLE (orderByRecency l) :=
  List.sorted_insertionSort recencyLE l

/-- A thirteen-element list paginates into a full first page of ten and a
second page holding the remaining three, and the two pages together are
exactly the list. -/
theorem paginate_split_13 (xs : List Post) (h : xs.length = 13) :
    (paginate xs 1).length = 10 ∧ (paginate xs 2).length = 3 ∧
    paginate xs 1 ++ paginate xs 2 = xs := by
  refine ⟨?_, ?_, ?_⟩
  · simp [paginate, POSTS_PER_PAGE, h]
  · simp [paginate, POSTS_PER_PAGE, h]
  · show (xs.drop 0).take 10 ++ (xs.drop 10).take 10 = xs
    rw [List.drop_zero, List.take_of_length_le (l := xs.drop 10) (by simp [h])]
    exact List.take_append_drop 10 xs

end Yatube

/-- C3: in a store of thirteen posts all in group `g` and all by author `u`,
each of the index, group and profile listings paginates into a first page of
exactly ten posts and a second page of exactly three; the two pages together
are the full queryset, which is ordered by recency. -/
theorem C3_pagination (db : Yatube.DB) (g : Yatube.Group) (u : String)
    (hlen : db.posts.length = 13)
    (hg : ∀ p ∈ db.posts, p.group = some g.id)
    (hu : ∀ p ∈ db.posts, p.author = u) :
    ((Yatube.index_page db 1).length = 10 ∧ (Yatube.index_page db 2).length = 3 ∧
      Yatube.index_page db 1 ++ Yatube.index_page db 2 = Yatube.indexPosts db ∧
      List.Sorted Yatube.recencyLE (Yatube.indexPosts db)) ∧
    ((Yatube.group_page db g 1).length = 10 ∧ (Yatube.group_page db g 2).length = 3 ∧
      Yatube.group_page db g 1 ++ Yatube.group_page db g 2 = Yatube.groupPosts db g ∧
      List.Sorted Yatube.recencyLE (Yatube.groupPosts db g)) ∧
    ((Yatube.profile_page db u 1).length = 10 ∧ (Yatube.profile_page db u 2).length = 3 ∧
      Yatube.profile_page db u 1 ++ Yatube.profile_page db u 2 = Yatube.profilePosts db u ∧
      List.Sorted Yatube.recencyLE (Yatube.profilePosts db u)) := by
  have hidx : (Yatube.indexPosts db).length = 13 := by
    simpa [Yatube.indexPosts, Yatube.length_orderByRecency] using hlen
  have hfg : db.posts.filter (fun p => p.group == some g.id) = db.posts :=
    List.filter_eq_self.mpr (fun p hp => by simp [hg p hp])
  have hfu : db.posts.filter (fun p => p.author == u) = db.posts :=
    List.filter_eq_self.mpr (fun p hp => by simp [hu p hp])
  have hgq : (Yatube.groupPosts db g).length = 13 := by
    simp [Yatube.groupPosts, Yatube.length_orderByRecency, hfg, hlen]
  have huq : (Yatube.profilePosts db u).length = 13 := by
    simp [Yatube.profilePosts, Yatube.length_orderByRecency, hfu, hlen]
  obtain ⟨a1, a2, a3⟩ := Yatube.paginate_split_13 _ hidx
  obtain ⟨b1, b2, b3⟩ := Yatube.paginate_split_13 _ hgq
  obtain ⟨c1, c2, c3⟩ := Yatube.paginate_split_13 _ huq
  exact ⟨⟨a1, a2, a3, Yatube.sorted_orderByRecency _⟩,
    ⟨b1, b2, b3, Yatube.sorted_orderByRecency _⟩,
    ⟨c1, c2, c3, Yatube.sorted_orderByRecency _⟩⟩

/-- C3 witness: the thirteen-post fixture satisfies the hypotheses, and its
index listing indeed has a ten-post first page and a three-post second page. -/
theorem C3_pagination_witness :
    Yatube.paginationFixture.posts.length = 13 ∧
    (∀ p ∈ Yatube.paginationFixture.posts, p.group = some Yatube.groupFixture.id) ∧
    (∀ p ∈ Yatube.paginationFixture.posts, p.author = "user") ∧
    (Yatube.index_page Yatube.paginationFixture 1).length = 10 ∧
    (Yatube.index_page Yatube.paginationFixture 2).length = 3 :=
  ⟨by decide, by decide, by decide,
    (C3_pagination Yatube.paginationFixture Yatube.groupFixture "user"
      (by decide) (by decide) (by decide)).1.1,
    (C3_pagination Yatube.paginationFixture Yatube.groupFixture "user"
      (by decide) (by decide) (by decide)).1.2.1⟩

/-- C2: starting from a cold cache, rendering the index at time `t0`, deleting
any post (including the only one), and rendering the index again at any time
`t1` inside the cache interval yields content byte-identical to the first
response — the deletion is not reflected while the entry is fresh. -/
theorem C2_index_cache (s0 : Yatube.SiteState) (t0 t1 pid : Nat)
    (hc : s0.indexCache = none) (h1 : t1 < t0 + Yatube.CACHE_TIMEOUT) :
    (Yatube.get_index (Yatube.delete_post (Yatube.get_index s0 t0).2 pid) t1).1 =
      (Yatube.get_index s0 t0).1 := by
  simp [Yatube.get_index, Yatube.delete_post, hc, h1]

/-- C2 witness: with the one-post fixture and a cold cache, fetching at time
0, deleting the only post, and fetching again at time 1 (inside the interval)
returns the first body unchanged. -/
theorem C2_index_cache_witness :
    Yatube.siteFixture.indexCache = none ∧
    (1 : Nat) < 0 + Yatube.CACHE_TIMEOUT ∧
    (Yatube.get_index
        (Yatube.delete_post (Yatube.get_index Yatube.siteFixture 0).2 1) 1).1 =
      (Yatube.get_index Yatube.siteFixture 0).1 :=
  ⟨rfl, by decide, C2_index_cache Yatube.siteFixture 0 1 1 rfl (by decide)⟩

/-- C4: a valid post-form submission by an authenticated user grows the post
count by exactly one, stores a post carrying the submitted text, group and
image authored by the submitter, and redirects to the submitter's profile
page. -/
theorem C4_create_post (db : Yatube.DB) (u : String) (form : Yatube.PostForm)
    (now : Nat) (hv : form.isValid db = true) :
    (Yatube.post_create db (some u) form now).1.posts.length = db.posts.length + 1 ∧
    (Yatube.post_create db (some u) form now).1.posts.head? =
      some { id := Yatube.nextPostId db, text := form.text, pub_date := now,
             author := u, group := form.group, image := form.image } ∧
    (Yatube.post_create db (some u) form now).2 =
      Yatube.Response.redirect (Yatube.profileUrl u) := by
  simp [Yatube.post_create, hv]

/-- C4 witness: submitting the concrete valid form to the one-post fixture
grows the count to two and redirects to `/profile/user/`. -/
theorem C4_create_post_witness :
    Yatube.postFormFixture.isValid Yatube.basicFixture = true ∧
    (Yatube.post_create Yatube.basicFixture (some "user") Yatube.postFormFixture 5).1.posts.length =
      Yatube.basicFixture.posts.length + 1 ∧
    (Yatube.post_create Yatube.basicFixture (some "user") Yatube.postFormFixture 5).2 =
      Yatube.Response.redirect (Yatube.profileUrl "user") :=
  ⟨by decide,
    (C4_create_post Yatube.basicFixture "user" Yatube.postFormFixture 5 (by decide)).1,
    (C4_create_post Yatube.basicFixture "user" Yatube.postFormFixture 5 (by decide)).2.2⟩

/-- C6: an unauthenticated request to each protected route — post creation,
post edit, comment submission — is answered by a redirect to the login page
with `next=` the original path, and leaves the store untouched (in
particular the comment count is unchanged). -/
theorem C6_guest_redirects (db : Yatube.DB) (pid : Nat)
    (pform : Yatube.PostForm) (cform : Yatube.CommentForm) (now : Nat) :
    Yatube.post_create db none pform now =
      (db, Yatube.Response.redirect (Yatube.loginUrl ++ "?next=" ++ "/create/")) ∧
    Yatube.post_edit db none pid pform =
      (db, Yatube.Response.redirect
        (Yatube.loginUrl ++ "?next=" ++ ("/posts/" ++ toString pid ++ "/edit/"))) ∧
    Yatube.add_comment db none pid cform =
      (db, Yatube.Response.redirect
        (Yatube.loginUrl ++ "?next=" ++ ("/posts/" ++ toString pid ++ "/comment/"))) ∧
    (Yatube.add_comment db none pid cform).1.comments.length = db.comments.length := by
  refine ⟨rfl, rfl, rfl, rfl⟩

/-- C8: a post in the store appears in a user's follow feed exactly when the
user follows the post's author. -/
theorem C8_follow_feed (db : Yatube.DB) (u : String) (p : Yatube.Post)
    (hp : p ∈ db.posts) :
    p ∈ Yatube.followFeed db u ↔ Yatube.isFollowing db u p.author = true := by
  unfold Yatube.followFeed
  rw [Yatube.mem_orderByRecency]
  simp [List.mem_filter, hp]

/-- C8 witness: in the fixture where `post_follower` follows `user`, the post
by `user` is in the follower's feed, and that membership coincides with the
follow relation. -/
theorem C8_follow_feed_witness :
    Yatube.feedPostFixture ∈ Yatube.followFixture.posts ∧
    (Yatube.feedPostFixture ∈ Yatube.followFeed Yatube.followFixture "post_follower" ↔
      Yatube.isFollowing Yatube.followFixture "post_follower"
        Yatube.feedPostFixture.author = true) :=
  ⟨by decide,
    C8_follow_feed Yatube.followFixture "post_follower" Yatube.feedPostFixture (by decide)⟩

/-- C10: when a slug resolves to group `g`, the group listing view serves
exactly `g`'s queryset, and a post is in that queryset precisely when it is a
stored post assigned to `g` — posts of other groups or of no group are
excluded. -/
theorem C10_group_listing (db : Yatube.DB) (slug : String) (g : Yatube.Group)
    (p : Yatube.Post) (hg : Yatube.groupOfSlug db slug = some g) :
    Yatube.group_list_view db slug = some (Yatube.groupPosts db g) ∧
    (p ∈ Yatube.groupPosts db g ↔ (p ∈ db.posts ∧ p.group = some g.id)) := by
  constructor
  · simp [Yatube.group_list_view, hg]
  · unfold Yatube.groupPosts
    rw [Yatube.mem_orderByRecency]
    simp [List.mem_filter]

/-- C10 witness: in the one-post fixture, the slug "slug" resolves to the
fixture group, and the fixture post (which is in that group) is listed. -/
theorem C10_group_listing_witness :
    Yatube.groupOfSlug Yatube.basicFixture "slug" = some Yatube.groupFixture ∧
    (Yatube.postFixture ∈ Yatube.groupPosts Yatube.basicFixture Yatube.groupFixture ↔
      (Yatube.postFixture ∈ Yatube.basicFixture.posts ∧
        Yatube.postFixture.group = some Yatube.groupFixture.id)) :=
  ⟨by decide,
    (C10_group_listing Yatube.basicFixture "slug" Yatube.groupFixture
      Yatube.postFixture (by decide)).2⟩

/-- C7: for an authenticated user with no existing Follow to the target
author, a follow request adds exactly one Follow record (total count up by
one, exactly one record for the pair), and a subsequent unfollow request
removes it, leaving no Follow record between the pair. -/
theorem C7_follow_unfollow (db : Yatube.DB) (u a : String)
    (h : Yatube.followCount db u a = 0) :
    (Yatube.profile_follow db (some u) a).1.follows.length = db.follows.length + 1 ∧
    Yatube.followCount (Yatube.profile_follow db (some u) a).1 u a = 1 ∧
    Yatube.followCount
      (Yatube.profile_unfollow (Yatube.profile_follow db (some u) a).1 (some u) a).1
      u a = 0 := by
  have h' : (db.follows.filter (fun f => f.user == u && f.author == a)).length = 0 :=
    h
  refine ⟨?_, ?_, ?_⟩
  · simp [Yatube.profile_follow]
  · simp [Yatube.profile_follow, Yatube.followCount, List.filter_cons, h']
  · simp [Yatube.profile_unfollow, Yatube.profile_follow, Yatube.followCount,
      List.filter_filter]

/-- C7 witness: in the fixture with no follows, `user` following
`post_follower` creates exactly one record and unfollowing removes it. -/
theorem C7_follow_unfollow_witness :
    Yatube.followCount Yatube.basicFixture "user" "post_follower" = 0 ∧
    Yatube.followCount
      (Yatube.profile_follow Yatube.basicFixture (some "user") "post_follower").1
      "user" "post_follower" = 1 ∧
    Yatube.followCount
      (Yatube.profile_unfollow
        (Yatube.profile_follow Yatube.basicFixture (some "user") "post_follower").1
        (some "user") "post_follower").1 "user" "post_follower" = 0 :=
  ⟨by decide,
    (C7_follow_unfollow Yatube.basicFixture "user" "post_follower" (by decide)).2.1,
    (C7_follow_unfollow Yatube.basicFixture "user" "post_follower" (by decide)).2.2⟩

/-- C5: a valid edit submitted by the post's own author keeps the post count
unchanged, changes the stored post's text (and group) to the submitted
values, and redirects to that post's detail page. -/
theorem C5_edit_post (db : Yatube.DB) (u : String) (pid : Nat)
    (form : Yatube.PostForm) (p : Yatube.Post)
    (hp : Yatube.findPost db pid = some p) (hau : p.author = u)
    (hv : form.isValid db = true) :
    (Yatube.post_edit db (some u) pid form).1.posts.length = db.posts.length ∧
    Yatube.findPost (Yatube.post_edit db (some u) pid form).1 pid =
      some { p with text := form.text, group := form.group } ∧
    (Yatube.post_edit db (some u) pid form).2 =
      Yatube.Response.redirect (Yatube.postDetailUrl pid) := by
  have hbeq : (p.author == u) = true := by simp [hau]
  have hfind : db.posts.find? (fun q : Yatube.Post => q.id == pid) = some p := hp
  have hpid0 := List.find?_some hfind
  have hpid : (p.id == pid) = true := hpid0
  refine ⟨?_, ?_, ?_⟩
  · simp [Yatube.post_edit, hp, hbeq, hv]
  · have hpred : (fun q : Yatube.Post =>
        (if q.id == pid then { q with text := form.text, group := form.group }
         else q).id == pid) = fun q : Yatube.Post => q.id == pid := by
      funext q
      by_cases hq : q.id = pid <;> simp [hq]
    simp only [Yatube.post_edit, hp, hbeq, hv, if_true]
    show ((db.posts.map fun q =>
        if q.id == pid then { q with text := form.text, group := form.group }
        else q).find? fun q => q.id == pid) =
      some { p with text := form.text, group := form.group }
    rw [List.find?_map, Function.comp_def, hpred]
    rw [hfind]
    have hpi : p.id = pid := by simpa using hpid
    simp [hpi]
  · simp [Yatube.post_edit, hp, hbeq, hv]

/-- C5 witness: the author of the fixture post edits it with the concrete
form; the count stays one, the stored text becomes the form's text, and the
response redirects to `/posts/1/`. -/
theorem C5_edit_post_witness :
    Yatube.findPost Yatube.basicFixture 1 = some Yatube.postFixture ∧
    Yatube.postFixture.author = "user" ∧
    Yatube.postFormFixture.isValid Yatube.basicFixture = true ∧
    (Yatube.post_edit Yatube.basicFixture (some "user") 1 Yatube.postFormFixture).1.posts.length =
      Yatube.basicFixture.posts.length ∧
    (Yatube.post_edit Yatube.basicFixture (some "user") 1 Yatube.postFormFixture).2 =
      Yatube.Response.redirect (Yatube.postDetailUrl 1) :=
  ⟨by decide, by decide, by decide,
    (C5_edit_post Yatube.basicFixture "user" 1 Yatube.postFormFixture
      Yatube.postFixture (by decide) (by decide) (by decide)).1,
    (C5_edit_post Yatube.basicFixture "user" 1 Yatube.postFormFixture
      Yatube.postFixture (by decide) (by decide) (by decide)).2.2⟩

/-- C9: deleting a group deletes no post — the post list keeps its length,
and the post at every position keeps its text, author and image, with its
group reference set to null when it pointed at the deleted group and left
unchanged otherwise. -/
theorem C9_group_delete (db : Yatube.DB) (gid : Nat) (i : Nat)
    (hi : i < db.posts.length) :
    (Yatube.delete_group db gid).posts.length = db.posts.length ∧
    ∃ hj : i < (Yatube.delete_group db gid).posts.length,
      ((Yatube.delete_group db gid).posts.get ⟨i, hj⟩).text =
        (db.posts.get ⟨i, hi⟩).text ∧
      ((Yatube.delete_group db gid).posts.get ⟨i, hj⟩).author =
        (db.posts.get ⟨i, hi⟩).author ∧
      ((Yatube.delete_group db gid).posts.get ⟨i, hj⟩).image =
        (db.posts.get ⟨i, hi⟩).image ∧
      ((Yatube.delete_group db gid).posts.get ⟨i, hj⟩).group =
        (if (db.posts.get ⟨i, hi⟩).group = some gid then none
         else (db.posts.get ⟨i, hi⟩).group) := by
  have hlen : (Yatube.delete_group db gid).posts.length = db.posts.length := by
    simp [Yatube.delete_group]
  have hj : i < (Yatube.delete_group db gid).posts.length := by
    rw [hlen]; exact hi
  refine ⟨hlen, hj, ?_, ?_, ?_, ?_⟩ <;>
    simp only [Yatube.delete_group, List.get_eq_getElem, List.getElem_map] <;>
    by_cases hg : (db.posts.get ⟨i, hi⟩).group = some gid <;>
    simp only [List.get_eq_getElem] at hg <;>
    simp [hg]

/-- C9 witness: deleting group 1 from the one-post fixture keeps the post
(same text, author, image) and nulls its group reference. -/
theorem C9_group_delete_witness :
    (0 : Nat) < Yatube.basicFixture.posts.length ∧
    (Yatube.delete_group Yatube.basicFixture 1).posts.length =
      Yatube.basicFixture.posts.length :=
  ⟨by decide, (C9_group_delete Yatube.basicFixture 1 0 (by decide)).1⟩
